import Mathlib

/-!
A shallow embedding of scripts/deploy.js, the GonanaEscrow deployment script.

The script talks to one external collaborator (the Hardhat runtime and the
network behind it).  The collaborator is modelled as six operations over an
arbitrary state `σ`; each operation either returns a value or throws an error
of an arbitrary type `ε`, and may change the state.  The process itself is
modelled by what an observer sees of it: the messages given to `console.log`,
the values given to `console.error`, the collaborator calls it makes (with
their outcomes) and the exit code.
-/

namespace Deploy

/-- The collaborator `hre` (`require("hardhat")`): the operations the script
calls, over a collaborator state `σ`.  `Factory` is what
`hre.ethers.getContractFactory` resolves to, `Handle` is what `deploy`
resolves to.  The fee is the basis-point value read from the contract. -/
structure Hardhat (σ ε Factory Handle : Type) where
  getContractFactory : String → σ → Except ε Factory × σ
  deploy : Factory → σ → Except ε Handle × σ
  waitForDeployment : Handle → σ → Except ε Unit × σ
  getAddress : Handle → σ → Except ε String × σ
  platformFee : Handle → σ → Except ε Nat × σ
  owner : Handle → σ → Except ε String × σ

/-- A collaborator call as the script makes it: the operation and its
receiver or argument. -/
inductive Call (Factory Handle : Type) where
  | getContractFactory (name : String)
  | deploy (factory : Factory)
  | waitForDeployment (escrow : Handle)
  | getAddress (escrow : Handle)
  | platformFee (escrow : Handle)
  | owner (escrow : Handle)
  deriving DecidableEq

/-- How an awaited collaborator call ended. -/
inductive Outcome (ε : Type) where
  | returned
  | threw (error : ε)
  deriving DecidableEq

/-- One entry of the call log: a call and how it ended. -/
structure Event (ε Factory Handle : Type) where
  call : Call Factory Handle
  outcome : Outcome ε
  deriving DecidableEq

/-- The observable state of the running process.  `stdout` holds the message
of each `console.log` call in order (each is written followed by a newline),
`stderr` the value of each `console.error` call, `calls` the collaborator
calls made so far, `exitCode` the argument of `process.exit` once called. -/
structure Process (σ ε Factory Handle : Type) where
  world : σ
  stdout : List String
  stderr : List ε
  calls : List (Event ε Factory Handle)
  exitCode : Option Nat

/-- A process that has just started. -/
def Process.start {σ ε Factory Handle : Type} (s : σ) : Process σ ε Factory Handle :=
  { world := s, stdout := [], stderr := [], calls := [], exitCode := none }

/-- The text on standard output: every message followed by a newline. -/
def Process.stdoutText {σ ε Factory Handle : Type} (p : Process σ ε Factory Handle) : String :=
  String.join (p.stdout.map (fun m => m ++ "\n"))

/-- A piece of the script: runs on a process state and either completes with a
value or throws, leaving the process state it reached. -/
def Script (σ ε Factory Handle α : Type) : Type :=
  Process σ ε Factory Handle → Except ε α × Process σ ε Factory Handle

section
variable {σ ε Factory Handle : Type}

/-- Completing with a value. -/
def Script.pure {α : Type} (a : α) : Script σ ε Factory Handle α :=
  fun p => (.ok a, p)

/-- Sequencing: a throw in the first part skips the second. -/
def Script.bind {α β : Type} (x : Script σ ε Factory Handle α)
    (k : α → Script σ ε Factory Handle β) : Script σ ε Factory Handle β :=
  fun p =>
    match x p with
    | (.ok a, q) => k a q
    | (.error e, q) => (.error e, q)

instance : Monad (Script σ ε Factory Handle) where
  pure := Script.pure
  bind := Script.bind

/-- Awaiting a collaborator call: the operation runs once on the collaborator
state, the call and its outcome are logged, and a rejection is rethrown. -/
def await {α : Type} (call : Call Factory Handle) (op : σ → Except ε α × σ) :
    Script σ ε Factory Handle α :=
  fun p =>
    match op p.world with
    | (.ok a, s) =>
        (.ok a, { p with world := s, calls := p.calls ++ [⟨call, .returned⟩] })
    | (.error e, s) =>
        (.error e, { p with world := s, calls := p.calls ++ [⟨call, .threw e⟩] })

/-- The call `console.log(args...)` with string arguments: a single argument
is the message as it stands; several arguments, the first of which has no
format directive, are joined by single spaces. -/
def consoleLog (args : List String) : Script σ ε Factory Handle Unit :=
  fun p => (.ok (), { p with stdout := p.stdout ++ [" ".intercalate args] })

/-- The call `console.error(error)`. -/
def consoleError (error : ε) (p : Process σ ε Factory Handle) : Process σ ε Factory Handle :=
  { p with stderr := p.stderr ++ [error] }

/-- The call `process.exit(code)`. -/
def processExit (code : Nat) (p : Process σ ε Factory Handle) : Process σ ε Factory Handle :=
  { p with exitCode := some code }

/-- The function `main` of scripts/deploy.js.  `inspect` is how `console.log`
renders the fee, its only argument that is not a string. -/
def main (hre : Hardhat σ ε Factory Handle) (inspect : Nat → String) :
    Script σ ε Factory Handle Unit := do
  consoleLog ["Deploying GonanaEscrow to BNB Chain Testnet..."]
  let GonanaEscrow ←
    await (.getContractFactory "GonanaEscrow") (hre.getContractFactory "GonanaEscrow")
  let escrow ← await (.deploy GonanaEscrow) (hre.deploy GonanaEscrow)
  await (.waitForDeployment escrow) (hre.waitForDeployment escrow)
  let contractAddress ← await (.getAddress escrow) (hre.getAddress escrow)
  consoleLog ["✅ GonanaEscrow deployed to:", contractAddress]
  consoleLog ["\nContract details:"]
  let fee ← await (.platformFee escrow) (hre.platformFee escrow)
  consoleLog ["- Platform Fee:", inspect fee, "basis points (2.5%)"]
  let owner ← await (.owner escrow) (hre.owner escrow)
  consoleLog ["- Owner:", owner]
  consoleLog ["\nView on BscScan:"]
  consoleLog ["https://testnet.bscscan.com/address/" ++ contractAddress]
  consoleLog ["\nTo verify contract, run:"]
  consoleLog ["npx hardhat verify --network bscTestnet " ++ contractAddress]

/-- The whole script: `main().then(() => process.exit(0)).catch(...)`, run on
a fresh process with the collaborator in state `s`. -/
def run (hre : Hardhat σ ε Factory Handle) (inspect : Nat → String) (s : σ) :
    Process σ ε Factory Handle :=
  match main hre inspect (Process.start s) with
  | (.ok (), p) => processExit 0 p
  | (.error error, p) => processExit 1 (consoleError error p)

end

/-! ## Vocabulary for statements about a run -/

/-- The six collaborator operations, without their arguments. -/
inductive Op where
  | getContractFactory
  | deploy
  | waitForDeployment
  | getAddress
  | platformFee
  | owner
  deriving DecidableEq

/-- The operation a call invokes. -/
def Call.op {Factory Handle : Type} : Call Factory Handle → Op
  | .getContractFactory _ => .getContractFactory
  | .deploy _ => .deploy
  | .waitForDeployment _ => .waitForDeployment
  | .getAddress _ => .getAddress
  | .platformFee _ => .platformFee
  | .owner _ => .owner

/-- How many times an operation was invoked in a call log. -/
def invocations {ε Factory Handle : Type} (op : Op) (calls : List (Event ε Factory Handle)) : Nat :=
  calls.countP (fun ev => decide (ev.call.op = op))

/-- Some message of the output begins with the given text. -/
def Printed (start : String) (out : List String) : Prop :=
  ∃ m ∈ out, start.data <+: m.data

/-- The text contains the given part. -/
def Contains (text part : String) : Prop :=
  part.data <:+: text.data

/-- The collaborator, started in state `s0`, lets all six operations return
when they are called in the order of deploy.js lines 6 to 15, each on the state
its predecessor left and on the factory or handle its predecessor returned. -/
def AllReturn {σ ε Factory Handle : Type} (hre : Hardhat σ ε Factory Handle) (s0 : σ) : Prop :=
  ∃ s1 s2 s3 s4 s5 s6 F h a f o,
    hre.getContractFactory "GonanaEscrow" s0 = (.ok F, s1) ∧
    hre.deploy F s1 = (.ok h, s2) ∧ hre.waitForDeployment h s2 = (.ok (), s3) ∧
    hre.getAddress h s3 = (.ok a, s4) ∧ hre.platformFee h s4 = (.ok f, s5) ∧
    hre.owner h s5 = (.ok o, s6)

/-- The collaborator, started in state `s0`, throws `e`: called in the order
of deploy.js lines 6 to 15, each on the state its predecessor left, the
operations return up to one of the six, which throws `e`. -/
def Throws {σ ε Factory Handle : Type} (hre : Hardhat σ ε Factory Handle) (s0 : σ) (e : ε) :
    Prop :=
  (∃ s1, hre.getContractFactory "GonanaEscrow" s0 = (.error e, s1)) ∨
  (∃ s1 s2 F, hre.getContractFactory "GonanaEscrow" s0 = (.ok F, s1) ∧
    hre.deploy F s1 = (.error e, s2)) ∨
  (∃ s1 s2 s3 F h, hre.getContractFactory "GonanaEscrow" s0 = (.ok F, s1) ∧
    hre.deploy F s1 = (.ok h, s2) ∧ hre.waitForDeployment h s2 = (.error e, s3)) ∨
  (∃ s1 s2 s3 s4 F h, hre.getContractFactory "GonanaEscrow" s0 = (.ok F, s1) ∧
    hre.deploy F s1 = (.ok h, s2) ∧ hre.waitForDeployment h s2 = (.ok (), s3) ∧
    hre.getAddress h s3 = (.error e, s4)) ∨
  (∃ s1 s2 s3 s4 s5 F h a, hre.getContractFactory "GonanaEscrow" s0 = (.ok F, s1) ∧
    hre.deploy F s1 = (.ok h, s2) ∧ hre.waitForDeployment h s2 = (.ok (), s3) ∧
    hre.getAddress h s3 = (.ok a, s4) ∧ hre.platformFee h s4 = (.error e, s5)) ∨
  (∃ s1 s2 s3 s4 s5 s6 F h a f, hre.getContractFactory "GonanaEscrow" s0 = (.ok F, s1) ∧
    hre.deploy F s1 = (.ok h, s2) ∧ hre.waitForDeployment h s2 = (.ok (), s3) ∧
    hre.getAddress h s3 = (.ok a, s4) ∧ hre.platformFee h s4 = (.ok f, s5) ∧
    hre.owner h s5 = (.error e, s6))

/-! ## A concrete collaborator for examples -/

/-- A scripted collaborator: its state counts the calls made, and the first
`good` calls succeed; later ones throw the name of the operation. -/
def scripted (good : Nat) : Hardhat Nat String Unit Unit where
  getContractFactory := fun _ n => (if n < good then .ok () else .error "getContractFactory", n + 1)
  deploy := fun _ n => (if n < good then .ok () else .error "deploy", n + 1)
  waitForDeployment := fun _ n => (if n < good then .ok () else .error "waitForDeployment", n + 1)
  getAddress := fun _ n => (if n < good then .ok "0xA11CE" else .error "getAddress", n + 1)
  platformFee := fun _ n => (if n < good then .ok 250 else .error "platformFee", n + 1)
  owner := fun _ n => (if n < good then .ok "0xB0B" else .error "owner", n + 1)

/-- A collaborator without state that never throws: every call returns the
same factory, handle, address, fee and owner. -/
def steady (address : String) (fee : Nat) (owner : String) : Hardhat Unit Empty Nat Nat where
  getContractFactory := fun _ u => (.ok 1, u)
  deploy := fun _ u => (.ok 7, u)
  waitForDeployment := fun _ u => (.ok (), u)
  getAddress := fun _ u => (.ok address, u)
  platformFee := fun _ u => (.ok fee, u)
  owner := fun _ u => (.ok owner, u)

/-- Rendering of a big integer without colours, as on a pipe. -/
def inspectBigInt (n : Nat) : String := toString n ++ "n"

/-- Rendering of a big integer with colours, as on a terminal: the same digits
between the escape sequences for yellow and for the default colour. -/
def inspectBigIntColour (n : Nat) : String := "\x1b[33m" ++ toString n ++ "n" ++ "\x1b[39m"

section
variable {σ ε Factory Handle : Type}

/-! ## Formatting of the messages -/

theorem format_one (a : String) : " ".intercalate [a] = a := rfl

theorem format_deployed (a : String) :
    " ".intercalate ["✅ GonanaEscrow deployed to:", a] = "✅ GonanaEscrow deployed to: " ++ a :=
  rfl

theorem format_fee (r : String) :
    " ".intercalate ["- Platform Fee:", r, "basis points (2.5%)"] =
      "- Platform Fee: " ++ r ++ " basis points (2.5%)" := by
  apply String.ext
  simp [String.intercalate, String.intercalate.go]

theorem format_owner (o : String) : " ".intercalate ["- Owner:", o] = "- Owner: " ++ o :=
  rfl

/-- A part of a printed message is a part of the output text. -/
theorem contains_of_message (p : Process σ ε Factory Handle) (m part : String)
    (hm : m ∈ p.stdout) (hp : part.data <:+: m.data) : Contains p.stdoutText part := by
  unfold Contains Process.stdoutText
  rw [String.data_join]
  have hmem : (m ++ "\n").data ∈ List.map String.data (p.stdout.map (fun m => m ++ "\n")) :=
    List.mem_map_of_mem _ (List.mem_map_of_mem _ hm)
  have hin : part.data <:+: (m ++ "\n").data := by
    rw [String.data_append]
    exact List.IsInfix.trans hp (List.prefix_append _ _).isInfix
  exact List.IsInfix.trans hin (List.infix_of_mem_flatten hmem)

/-- A message that opens with a literal which `start` disagrees with does not
begin with `start`, whatever follows the literal. -/
theorem not_begins (start lit : String) (rest : List Char)
    (hne : ¬ start.data.take lit.data.length <+: lit.data) :
    ¬ start.data <+: lit.data ++ rest := by
  intro hp
  apply hne
  refine List.prefix_of_prefix_length_le ((List.take_prefix _ _).trans hp)
    (List.prefix_append _ _) ?_
  rw [List.length_take]
  exact Nat.min_le_left _ _

/-! ## What a run looks like, by the first operation that throws -/

/-- The run in which `getContractFactory` is the first operation to throw. -/
theorem run_getContractFactory_throws (hre : Hardhat σ ε Factory Handle) (inspect : Nat → String)
    (s0 s1 : σ)  (e : ε)
    (h1 : hre.getContractFactory "GonanaEscrow" s0 = (.error e, s1)) :
    run hre inspect s0 =
      { world := s1
        stdout := ["Deploying GonanaEscrow to BNB Chain Testnet..."]
        stderr := [e]
        calls := [⟨.getContractFactory "GonanaEscrow", .threw e⟩]
        exitCode := some 1 } := by
  simp [run, main, bind, Script.bind, await, consoleLog, consoleError, processExit,
    Process.start, format_one, format_deployed, format_fee, format_owner, h1]

/-- The run in which `deploy` is the first operation to throw. -/
theorem run_deploy_throws (hre : Hardhat σ ε Factory Handle) (inspect : Nat → String)
    (s0 s1 s2 : σ) (F : Factory) (e : ε)
    (h1 : hre.getContractFactory "GonanaEscrow" s0 = (.ok F, s1))
    (h2 : hre.deploy F s1 = (.error e, s2)) :
    run hre inspect s0 =
      { world := s2
        stdout := ["Deploying GonanaEscrow to BNB Chain Testnet..."]
        stderr := [e]
        calls := [⟨.getContractFactory "GonanaEscrow", .returned⟩,
          ⟨.deploy F, .threw e⟩]
        exitCode := some 1 } := by
  simp [run, main, bind, Script.bind, await, consoleLog, consoleError, processExit,
    Process.start, format_one, format_deployed, format_fee, format_owner, h1, h2]

/-- The run in which `waitForDeployment` is the first operation to throw. -/
theorem run_waitForDeployment_throws (hre : Hardhat σ ε Factory Handle) (inspect : Nat → String)
    (s0 s1 s2 s3 : σ) (F : Factory) (h : Handle) (e : ε)
    (h1 : hre.getContractFactory "GonanaEscrow" s0 = (.ok F, s1))
    (h2 : hre.deploy F s1 = (.ok h, s2))
    (h3 : hre.waitForDeployment h s2 = (.error e, s3)) :
    run hre inspect s0 =
      { world := s3
        stdout := ["Deploying GonanaEscrow to BNB Chain Testnet..."]
        stderr := [e]
        calls := [⟨.getContractFactory "GonanaEscrow", .returned⟩,
          ⟨.deploy F, .returned⟩,
          ⟨.waitForDeployment h, .threw e⟩]
        exitCode := some 1 } := by
  simp [run, main, bind, Script.bind, await, consoleLog, consoleError, processExit,
    Process.start, format_one, format_deployed, format_fee, format_owner, h1, h2, h3]

/-- The run in which `getAddress` is the first operation to throw. -/
theorem run_getAddress_throws (hre : Hardhat σ ε Factory Handle) (inspect : Nat → String)
    (s0 s1 s2 s3 s4 : σ) (F : Factory) (h : Handle) (e : ε)
    (h1 : hre.getContractFactory "GonanaEscrow" s0 = (.ok F, s1))
    (h2 : hre.deploy F s1 = (.ok h, s2))
    (h3 : hre.waitForDeployment h s2 = (.ok (), s3))
    (h4 : hre.getAddress h s3 = (.error e, s4)) :
    run hre inspect s0 =
      { world := s4
        stdout := ["Deploying GonanaEscrow to BNB Chain Testnet..."]
        stderr := [e]
        calls := [⟨.getContractFactory "GonanaEscrow", .returned⟩,
          ⟨.deploy F, .returned⟩,
          ⟨.waitForDeployment h, .returned⟩,
          ⟨.getAddress h, .threw e⟩]
        exitCode := some 1 } := by
  simp [run, main, bind, Script.bind, await, consoleLog, consoleError, processExit,
    Process.start, format_one, format_deployed, format_fee, format_owner, h1, h2, h3, h4]

/-- The run in which `platformFee` is the first operation to throw. -/
theorem run_platformFee_throws (hre : Hardhat σ ε Factory Handle) (inspect : Nat → String)
    (s0 s1 s2 s3 s4 s5 : σ) (F : Factory) (h : Handle) (a : String) (e : ε)
    (h1 : hre.getContractFactory "GonanaEscrow" s0 = (.ok F, s1))
    (h2 : hre.deploy F s1 = (.ok h, s2))
    (h3 : hre.waitForDeployment h s2 = (.ok (), s3))
    (h4 : hre.getAddress h s3 = (.ok a, s4))
    (h5 : hre.platformFee h s4 = (.error e, s5)) :
    run hre inspect s0 =
      { world := s5
        stdout := ["Deploying GonanaEscrow to BNB Chain Testnet...",
          "✅ GonanaEscrow deployed to: " ++ a,
          "\nContract details:"]
        stderr := [e]
        calls := [⟨.getContractFactory "GonanaEscrow", .returned⟩,
          ⟨.deploy F, .returned⟩,
          ⟨.waitForDeployment h, .returned⟩,
          ⟨.getAddress h, .returned⟩,
          ⟨.platformFee h, .threw e⟩]
        exitCode := some 1 } := by
  simp [run, main, bind, Script.bind, await, consoleLog, consoleError, processExit,
    Process.start, format_one, format_deployed, format_fee, format_owner, h1, h2, h3, h4, h5]

/-- The run in which `owner` is the first operation to throw. -/
theorem run_owner_throws (hre : Hardhat σ ε Factory Handle) (inspect : Nat → String)
    (s0 s1 s2 s3 s4 s5 s6 : σ) (F : Factory) (h : Handle) (a : String) (f : Nat) (e : ε)
    (h1 : hre.getContractFactory "GonanaEscrow" s0 = (.ok F, s1))
    (h2 : hre.deploy F s1 = (.ok h, s2))
    (h3 : hre.waitForDeployment h s2 = (.ok (), s3))
    (h4 : hre.getAddress h s3 = (.ok a, s4))
    (h5 : hre.platformFee h s4 = (.ok f, s5))
    (h6 : hre.owner h s5 = (.error e, s6)) :
    run hre inspect s0 =
      { world := s6
        stdout := ["Deploying GonanaEscrow to BNB Chain Testnet...",
          "✅ GonanaEscrow deployed to: " ++ a,
          "\nContract details:",
          "- Platform Fee: " ++ inspect f ++ " basis points (2.5%)"]
        stderr := [e]
        calls := [⟨.getContractFactory "GonanaEscrow", .returned⟩,
          ⟨.deploy F, .returned⟩,
          ⟨.waitForDeployment h, .returned⟩,
          ⟨.getAddress h, .returned⟩,
          ⟨.platformFee h, .returned⟩,
          ⟨.owner h, .threw e⟩]
        exitCode := some 1 } := by
  simp [run, main, bind, Script.bind, await, consoleLog, consoleError, processExit,
    Process.start, format_one, format_deployed, format_fee, format_owner, h1, h2, h3, h4, h5, h6]

/-- The run in which no operation throws. -/
theorem run_success (hre : Hardhat σ ε Factory Handle) (inspect : Nat → String)
    (s0 s1 s2 s3 s4 s5 s6 : σ) (F : Factory) (h : Handle) (a : String) (f : Nat) (o : String)
    (h1 : hre.getContractFactory "GonanaEscrow" s0 = (.ok F, s1))
    (h2 : hre.deploy F s1 = (.ok h, s2))
    (h3 : hre.waitForDeployment h s2 = (.ok (), s3))
    (h4 : hre.getAddress h s3 = (.ok a, s4))
    (h5 : hre.platformFee h s4 = (.ok f, s5))
    (h6 : hre.owner h s5 = (.ok o, s6)) :
    run hre inspect s0 =
      { world := s6
        stdout := ["Deploying GonanaEscrow to BNB Chain Testnet...",
          "✅ GonanaEscrow deployed to: " ++ a,
          "\nContract details:",
          "- Platform Fee: " ++ inspect f ++ " basis points (2.5%)",
          "- Owner: " ++ o,
          "\nView on BscScan:",
          "https://testnet.bscscan.com/address/" ++ a,
          "\nTo verify contract, run:",
          "npx hardhat verify --network bscTestnet " ++ a]
        stderr := []
        calls := [⟨.getContractFactory "GonanaEscrow", .returned⟩,
          ⟨.deploy F, .returned⟩,
          ⟨.waitForDeployment h, .returned⟩,
          ⟨.getAddress h, .returned⟩,
          ⟨.platformFee h, .returned⟩,
          ⟨.owner h, .returned⟩]
        exitCode := some 0 } := by
  simp [run, main, bind, Script.bind, await, consoleLog, consoleError, processExit,
    Process.start, format_one, format_deployed, format_fee, format_owner, h1, h2, h3, h4, h5, h6]

/-- Every run is one of the seven above. -/
theorem run_cases (hre : Hardhat σ ε Factory Handle) (s0 : σ) :
    (∃ s1 e, hre.getContractFactory "GonanaEscrow" s0 = (.error e, s1)) ∨
    (∃ s1 s2 F e, hre.getContractFactory "GonanaEscrow" s0 = (.ok F, s1) ∧
      hre.deploy F s1 = (.error e, s2)) ∨
    (∃ s1 s2 s3 F h e, hre.getContractFactory "GonanaEscrow" s0 = (.ok F, s1) ∧
      hre.deploy F s1 = (.ok h, s2) ∧ hre.waitForDeployment h s2 = (.error e, s3)) ∨
    (∃ s1 s2 s3 s4 F h e, hre.getContractFactory "GonanaEscrow" s0 = (.ok F, s1) ∧
      hre.deploy F s1 = (.ok h, s2) ∧ hre.waitForDeployment h s2 = (.ok (), s3) ∧
      hre.getAddress h s3 = (.error e, s4)) ∨
    (∃ s1 s2 s3 s4 s5 F h a e, hre.getContractFactory "GonanaEscrow" s0 = (.ok F, s1) ∧
      hre.deploy F s1 = (.ok h, s2) ∧ hre.waitForDeployment h s2 = (.ok (), s3) ∧
      hre.getAddress h s3 = (.ok a, s4) ∧ hre.platformFee h s4 = (.error e, s5)) ∨
    (∃ s1 s2 s3 s4 s5 s6 F h a f e, hre.getContractFactory "GonanaEscrow" s0 = (.ok F, s1) ∧
      hre.deploy F s1 = (.ok h, s2) ∧ hre.waitForDeployment h s2 = (.ok (), s3) ∧
      hre.getAddress h s3 = (.ok a, s4) ∧ hre.platformFee h s4 = (.ok f, s5) ∧
      hre.owner h s5 = (.error e, s6)) ∨
    (∃ s1 s2 s3 s4 s5 s6 F h a f o, hre.getContractFactory "GonanaEscrow" s0 = (.ok F, s1) ∧
      hre.deploy F s1 = (.ok h, s2) ∧ hre.waitForDeployment h s2 = (.ok (), s3) ∧
      hre.getAddress h s3 = (.ok a, s4) ∧ hre.platformFee h s4 = (.ok f, s5) ∧
      hre.owner h s5 = (.ok o, s6)) := by
  rcases h1 : hre.getContractFactory "GonanaEscrow" s0 with ⟨e | F, s1⟩
  · exact Or.inl ⟨s1, e, rfl⟩
  rcases h2 : hre.deploy F s1 with ⟨e | h, s2⟩
  · exact Or.inr (Or.inl ⟨s1, s2, F, e, rfl, h2⟩)
  rcases h3 : hre.waitForDeployment h s2 with ⟨e | u, s3⟩
  · exact Or.inr (Or.inr (Or.inl ⟨s1, s2, s3, F, h, e, rfl, h2, h3⟩))
  rcases h4 : hre.getAddress h s3 with ⟨e | a, s4⟩
  · exact Or.inr (Or.inr (Or.inr (Or.inl ⟨s1, s2, s3, s4, F, h, e, rfl, h2, h3, h4⟩)))
  rcases h5 : hre.platformFee h s4 with ⟨e | f, s5⟩
  · exact Or.inr (Or.inr (Or.inr (Or.inr (Or.inl
      ⟨s1, s2, s3, s4, s5, F, h, a, e, rfl, h2, h3, h4, h5⟩))))
  rcases h6 : hre.owner h s5 with ⟨e | o, s6⟩
  · exact Or.inr (Or.inr (Or.inr (Or.inr (Or.inr (Or.inl
      ⟨s1, s2, s3, s4, s5, s6, F, h, a, f, e, rfl, h2, h3, h4, h5, h6⟩)))))
  · exact Or.inr (Or.inr (Or.inr (Or.inr (Or.inr (Or.inr
      ⟨s1, s2, s3, s4, s5, s6, F, h, a, f, o, rfl, h2, h3, h4, h5, h6⟩)))))

/-! ## The claims -/

/-- C1 (happy path): when getContractFactory, deploy, waitForDeployment,
getAddress (returning `a`), platformFee (returning `f`) and owner (returning
`o`) all succeed, the script exits with code 0, nothing is written to the
error stream, and the text on standard output contains `a`, the rendering of
`f`, and `o`. -/
theorem happy_path (hre : Hardhat σ ε Factory Handle) (inspect : Nat → String)
    (s0 s1 s2 s3 s4 s5 s6 : σ) (F : Factory) (h : Handle) (a : String) (f : Nat) (o : String)
    (h1 : hre.getContractFactory "GonanaEscrow" s0 = (.ok F, s1))
    (h2 : hre.deploy F s1 = (.ok h, s2))
    (h3 : hre.waitForDeployment h s2 = (.ok (), s3))
    (h4 : hre.getAddress h s3 = (.ok a, s4))
    (h5 : hre.platformFee h s4 = (.ok f, s5))
    (h6 : hre.owner h s5 = (.ok o, s6)) :
    (run hre inspect s0).exitCode = some 0 ∧
    (run hre inspect s0).stderr = [] ∧
    Contains (run hre inspect s0).stdoutText a ∧
    Contains (run hre inspect s0).stdoutText (inspect f) ∧
    Contains (run hre inspect s0).stdoutText o := by
  rw [run_success hre inspect s0 s1 s2 s3 s4 s5 s6 F h a f o h1 h2 h3 h4 h5 h6]
  refine ⟨rfl, rfl, ?_, ?_, ?_⟩
  · refine contains_of_message _ ("✅ GonanaEscrow deployed to: " ++ a) a (by simp) ?_
    rw [String.data_append]
    exact (List.suffix_append _ _).isInfix
  · refine contains_of_message _ ("- Platform Fee: " ++ inspect f ++ " basis points (2.5%)")
      (inspect f) (by simp) ?_
    simp only [String.data_append]
    exact List.infix_append _ _ _
  · refine contains_of_message _ ("- Owner: " ++ o) o (by simp) ?_
    rw [String.data_append]
    exact (List.suffix_append _ _).isInfix

/-- Witness for C1: a collaborator whose six calls succeed with address
0xA11CE, fee 250 and owner 0xB0B. -/
theorem happy_path_witness :
    (scripted 6).getContractFactory "GonanaEscrow" 0 = (.ok (), 1) ∧
    (scripted 6).deploy () 1 = (.ok (), 2) ∧
    (scripted 6).waitForDeployment () 2 = (.ok (), 3) ∧
    (scripted 6).getAddress () 3 = (.ok "0xA11CE", 4) ∧
    (scripted 6).platformFee () 4 = (.ok 250, 5) ∧
    (scripted 6).owner () 5 = (.ok "0xB0B", 6) ∧
    (run (scripted 6) inspectBigInt 0).exitCode = some 0 ∧
    (run (scripted 6) inspectBigInt 0).stderr = [] ∧
    Contains (run (scripted 6) inspectBigInt 0).stdoutText "0xA11CE" ∧
    Contains (run (scripted 6) inspectBigInt 0).stdoutText (inspectBigInt 250) ∧
    Contains (run (scripted 6) inspectBigInt 0).stdoutText "0xB0B" :=
  ⟨rfl, rfl, rfl, rfl, rfl, rfl,
    happy_path (scripted 6) inspectBigInt 0 1 2 3 4 5 6 () () "0xA11CE" 250 "0xB0B"
      rfl rfl rfl rfl rfl rfl⟩

/-- C2 (exit status and error surfacing): whatever the collaborator does, the
script exits with code 0 exactly when all the operations `main` calls return,
and then writes nothing to the error stream; whenever one of them throws `e`,
the script exits with code 1 and the error stream holds exactly `e`, once; and
every run is one of these two. -/
theorem exit_status_and_error_surfacing (hre : Hardhat σ ε Factory Handle)
    (inspect : Nat → String) (s0 : σ) :
    ((run hre inspect s0).exitCode = some 0 ↔ AllReturn hre s0) ∧
    (AllReturn hre s0 → (run hre inspect s0).stderr = []) ∧
    (∀ e, Throws hre s0 e →
      (run hre inspect s0).exitCode = some 1 ∧ (run hre inspect s0).stderr = [e]) ∧
    (AllReturn hre s0 ∨ ∃ e, Throws hre s0 e) := by
  have hthrow : ∀ e, Throws hre s0 e →
      (run hre inspect s0).exitCode = some 1 ∧ (run hre inspect s0).stderr = [e] := by
    intro e he
    rcases he with ⟨s1, h1⟩ | ⟨s1, s2, F, h1, h2⟩ | ⟨s1, s2, s3, F, h, h1, h2, h3⟩ |
      ⟨s1, s2, s3, s4, F, h, h1, h2, h3, h4⟩ |
      ⟨s1, s2, s3, s4, s5, F, h, a, h1, h2, h3, h4, h5⟩ |
      ⟨s1, s2, s3, s4, s5, s6, F, h, a, f, h1, h2, h3, h4, h5, h6⟩
    · rw [run_getContractFactory_throws hre inspect s0 s1 e h1]; exact ⟨rfl, rfl⟩
    · rw [run_deploy_throws hre inspect s0 s1 s2 F e h1 h2]; exact ⟨rfl, rfl⟩
    · rw [run_waitForDeployment_throws hre inspect s0 s1 s2 s3 F h e h1 h2 h3]
      exact ⟨rfl, rfl⟩
    · rw [run_getAddress_throws hre inspect s0 s1 s2 s3 s4 F h e h1 h2 h3 h4]
      exact ⟨rfl, rfl⟩
    · rw [run_platformFee_throws hre inspect s0 s1 s2 s3 s4 s5 F h a e h1 h2 h3 h4 h5]
      exact ⟨rfl, rfl⟩
    · rw [run_owner_throws hre inspect s0 s1 s2 s3 s4 s5 s6 F h a f e h1 h2 h3 h4 h5 h6]
      exact ⟨rfl, rfl⟩
  have hok : AllReturn hre s0 →
      (run hre inspect s0).exitCode = some 0 ∧ (run hre inspect s0).stderr = [] := by
    rintro ⟨s1, s2, s3, s4, s5, s6, F, h, a, f, o, h1, h2, h3, h4, h5, h6⟩
    rw [run_success hre inspect s0 s1 s2 s3 s4 s5 s6 F h a f o h1 h2 h3 h4 h5 h6]
    exact ⟨rfl, rfl⟩
  have hcases : AllReturn hre s0 ∨ ∃ e, Throws hre s0 e := by
    rcases run_cases hre s0 with ⟨s1, e, h1⟩ | ⟨s1, s2, F, e, h1, h2⟩ |
      ⟨s1, s2, s3, F, h, e, h1, h2, h3⟩ | ⟨s1, s2, s3, s4, F, h, e, h1, h2, h3, h4⟩ |
      ⟨s1, s2, s3, s4, s5, F, h, a, e, h1, h2, h3, h4, h5⟩ |
      ⟨s1, s2, s3, s4, s5, s6, F, h, a, f, e, h1, h2, h3, h4, h5, h6⟩ |
      ⟨s1, s2, s3, s4, s5, s6, F, h, a, f, o, h1, h2, h3, h4, h5, h6⟩
    · exact Or.inr ⟨e, Or.inl ⟨s1, h1⟩⟩
    · exact Or.inr ⟨e, Or.inr (Or.inl ⟨s1, s2, F, h1, h2⟩)⟩
    · exact Or.inr ⟨e, Or.inr (Or.inr (Or.inl ⟨s1, s2, s3, F, h, h1, h2, h3⟩))⟩
    · exact Or.inr ⟨e, Or.inr (Or.inr (Or.inr (Or.inl
        ⟨s1, s2, s3, s4, F, h, h1, h2, h3, h4⟩)))⟩
    · exact Or.inr ⟨e, Or.inr (Or.inr (Or.inr (Or.inr (Or.inl
        ⟨s1, s2, s3, s4, s5, F, h, a, h1, h2, h3, h4, h5⟩))))⟩
    · exact Or.inr ⟨e, Or.inr (Or.inr (Or.inr (Or.inr (Or.inr
        ⟨s1, s2, s3, s4, s5, s6, F, h, a, f, h1, h2, h3, h4, h5, h6⟩))))⟩
    · exact Or.inl ⟨s1, s2, s3, s4, s5, s6, F, h, a, f, o, h1, h2, h3, h4, h5, h6⟩
  refine ⟨⟨fun hexit => ?_, fun hall => (hok hall).1⟩, fun hall => (hok hall).2, hthrow, hcases⟩
  rcases hcases with hall | ⟨e, he⟩
  · exact hall
  · rw [(hthrow e he).1] at hexit
    cases hexit

/-- Witness for C2: a collaborator whose getAddress throws makes the script
exit with code 1 and write that error, and only it, to the error stream; one
whose six calls return makes it exit with code 0. -/
theorem exit_status_and_error_surfacing_witness :
    (scripted 3).getContractFactory "GonanaEscrow" 0 = (.ok (), 1) ∧
    (scripted 3).deploy () 1 = (.ok (), 2) ∧
    (scripted 3).waitForDeployment () 2 = (.ok (), 3) ∧
    (scripted 3).getAddress () 3 = (.error "getAddress", 4) ∧
    (run (scripted 3) inspectBigInt 0).exitCode = some 1 ∧
    (run (scripted 3) inspectBigInt 0).stderr = ["getAddress"] ∧
    (run (scripted 6) inspectBigInt 0).exitCode = some 0 :=
  ⟨rfl, rfl, rfl, rfl,
    ((exit_status_and_error_surfacing (scripted 3) inspectBigInt 0).2.2.1 "getAddress"
      (Or.inr (Or.inr (Or.inr (Or.inl ⟨1, 2, 3, 4, (), (), rfl, rfl, rfl, rfl⟩))))).1,
    ((exit_status_and_error_surfacing (scripted 3) inspectBigInt 0).2.2.1 "getAddress"
      (Or.inr (Or.inr (Or.inr (Or.inl ⟨1, 2, 3, 4, (), (), rfl, rfl, rfl, rfl⟩))))).2,
    (exit_status_and_error_surfacing (scripted 6) inspectBigInt 0).1.mpr
      ⟨1, 2, 3, 4, 5, 6, (), (), "0xA11CE", 250, "0xB0B", rfl, rfl, rfl, rfl, rfl, rfl⟩⟩

/-- C3 (early failure prints no summary): if getContractFactory throws, or
deploy throws, or deploy succeeds and waitForDeployment throws, the script
exits with code 1, never invokes getAddress, platformFee or owner, and
standard output holds the opening banner and nothing else: no address line, no
fee line, no owner line, no explorer URL and no verification command. -/
theorem early_failure_prints_no_summary (hre : Hardhat σ ε Factory Handle)
    (inspect : Nat → String) (s0 : σ)
    (hfail : (∃ s1 e, hre.getContractFactory "GonanaEscrow" s0 = (.error e, s1)) ∨
      (∃ s1 s2 F e, hre.getContractFactory "GonanaEscrow" s0 = (.ok F, s1) ∧
        hre.deploy F s1 = (.error e, s2)) ∨
      (∃ s1 s2 s3 F h e, hre.getContractFactory "GonanaEscrow" s0 = (.ok F, s1) ∧
        hre.deploy F s1 = (.ok h, s2) ∧ hre.waitForDeployment h s2 = (.error e, s3))) :
    (run hre inspect s0).exitCode = some 1 ∧
    invocations .getAddress (run hre inspect s0).calls = 0 ∧
    invocations .platformFee (run hre inspect s0).calls = 0 ∧
    invocations .owner (run hre inspect s0).calls = 0 ∧
    (run hre inspect s0).stdout = ["Deploying GonanaEscrow to BNB Chain Testnet..."] ∧
    ¬ Printed "✅ GonanaEscrow deployed to:" (run hre inspect s0).stdout ∧
    ¬ Printed "- Platform Fee:" (run hre inspect s0).stdout ∧
    ¬ Printed "- Owner:" (run hre inspect s0).stdout ∧
    ¬ Printed "https://testnet.bscscan.com/address/" (run hre inspect s0).stdout ∧
    ¬ Printed "npx hardhat verify" (run hre inspect s0).stdout := by
  rcases hfail with ⟨s1, e, h1⟩ | ⟨s1, s2, F, e, h1, h2⟩ | ⟨s1, s2, s3, F, h, e, h1, h2, h3⟩
  · rw [run_getContractFactory_throws hre inspect s0 s1 e h1]
    refine ⟨rfl, rfl, rfl, rfl, rfl, ?_, ?_, ?_, ?_, ?_⟩ <;>
      simp only [Printed, List.mem_singleton, exists_eq_left] <;> decide
  · rw [run_deploy_throws hre inspect s0 s1 s2 F e h1 h2]
    refine ⟨rfl, rfl, rfl, rfl, rfl, ?_, ?_, ?_, ?_, ?_⟩ <;>
      simp only [Printed, List.mem_singleton, exists_eq_left] <;> decide
  · rw [run_waitForDeployment_throws hre inspect s0 s1 s2 s3 F h e h1 h2 h3]
    refine ⟨rfl, rfl, rfl, rfl, rfl, ?_, ?_, ?_, ?_, ?_⟩ <;>
      simp only [Printed, List.mem_singleton, exists_eq_left] <;> decide

/-- Witness for C3: a collaborator whose deploy succeeds and whose
waitForDeployment throws. -/
theorem early_failure_prints_no_summary_witness :
    (scripted 2).getContractFactory "GonanaEscrow" 0 = (.ok (), 1) ∧
    (scripted 2).deploy () 1 = (.ok (), 2) ∧
    (scripted 2).waitForDeployment () 2 = (.error "waitForDeployment", 3) ∧
    (run (scripted 2) inspectBigInt 0).exitCode = some 1 ∧
    invocations .getAddress (run (scripted 2) inspectBigInt 0).calls = 0 ∧
    invocations .platformFee (run (scripted 2) inspectBigInt 0).calls = 0 ∧
    invocations .owner (run (scripted 2) inspectBigInt 0).calls = 0 ∧
    (run (scripted 2) inspectBigInt 0).stdout =
      ["Deploying GonanaEscrow to BNB Chain Testnet..."] ∧
    ¬ Printed "✅ GonanaEscrow deployed to:" (run (scripted 2) inspectBigInt 0).stdout ∧
    ¬ Printed "- Platform Fee:" (run (scripted 2) inspectBigInt 0).stdout ∧
    ¬ Printed "- Owner:" (run (scripted 2) inspectBigInt 0).stdout ∧
    ¬ Printed "https://testnet.bscscan.com/address/" (run (scripted 2) inspectBigInt 0).stdout ∧
    ¬ Printed "npx hardhat verify" (run (scripted 2) inspectBigInt 0).stdout :=
  ⟨rfl, rfl, rfl, early_failure_prints_no_summary (scripted 2) inspectBigInt 0
    (Or.inr (Or.inr ⟨1, 2, 3, (), (), "waitForDeployment", rfl, rfl, rfl⟩))⟩

/-- C4 (read-call failure): if deployment, confirmation and getAddress succeed
and the platformFee read throws, the script exits with code 1, owner is never
invoked, and no message beginning with "- Platform Fee:" or with "- Owner:" is
printed. -/
theorem fee_read_failure (hre : Hardhat σ ε Factory Handle) (inspect : Nat → String)
    (s0 s1 s2 s3 s4 s5 : σ) (F : Factory) (h : Handle) (a : String) (e : ε)
    (h1 : hre.getContractFactory "GonanaEscrow" s0 = (.ok F, s1))
    (h2 : hre.deploy F s1 = (.ok h, s2))
    (h3 : hre.waitForDeployment h s2 = (.ok (), s3))
    (h4 : hre.getAddress h s3 = (.ok a, s4))
    (h5 : hre.platformFee h s4 = (.error e, s5)) :
    (run hre inspect s0).exitCode = some 1 ∧
    invocations .owner (run hre inspect s0).calls = 0 ∧
    ¬ Printed "- Platform Fee:" (run hre inspect s0).stdout ∧
    ¬ Printed "- Owner:" (run hre inspect s0).stdout := by
  rw [run_platformFee_throws hre inspect s0 s1 s2 s3 s4 s5 F h a e h1 h2 h3 h4 h5]
  refine ⟨rfl, rfl, ?_, ?_⟩
  · rintro ⟨m, hm, hp⟩
    simp only [List.mem_cons, List.mem_singleton, List.not_mem_nil, or_false] at hm
    rcases hm with rfl | rfl | rfl
    · revert hp; decide
    · rw [String.data_append] at hp
      exact not_begins _ _ _ (by decide) hp
    · revert hp; decide
  · rintro ⟨m, hm, hp⟩
    simp only [List.mem_cons, List.mem_singleton, List.not_mem_nil, or_false] at hm
    rcases hm with rfl | rfl | rfl
    · revert hp; decide
    · rw [String.data_append] at hp
      exact not_begins _ _ _ (by decide) hp
    · revert hp; decide

/-- Witness for C4: a collaborator whose first four calls succeed and whose
platformFee read throws. -/
theorem fee_read_failure_witness :
    (scripted 4).getContractFactory "GonanaEscrow" 0 = (.ok (), 1) ∧
    (scripted 4).deploy () 1 = (.ok (), 2) ∧
    (scripted 4).waitForDeployment () 2 = (.ok (), 3) ∧
    (scripted 4).getAddress () 3 = (.ok "0xA11CE", 4) ∧
    (scripted 4).platformFee () 4 = (.error "platformFee", 5) ∧
    (run (scripted 4) inspectBigInt 0).exitCode = some 1 ∧
    invocations .owner (run (scripted 4) inspectBigInt 0).calls = 0 ∧
    ¬ Printed "- Platform Fee:" (run (scripted 4) inspectBigInt 0).stdout ∧
    ¬ Printed "- Owner:" (run (scripted 4) inspectBigInt 0).stdout :=
  ⟨rfl, rfl, rfl, rfl, rfl,
    fee_read_failure (scripted 4) inspectBigInt 0 1 2 3 4 5 () () "0xA11CE" "platformFee"
      rfl rfl rfl rfl rfl⟩

/-- C5 (address is read only after confirmation): in every run, wherever the
call log holds a getAddress call on a handle, an earlier entry of the log is a
waitForDeployment call on the same handle that returned. -/
theorem address_read_after_confirmation (hre : Hardhat σ ε Factory Handle)
    (inspect : Nat → String) (s0 : σ)
    (before after : List (Event ε Factory Handle)) (ev : Event ε Factory Handle)
    (escrow : Handle)
    (hlog : (run hre inspect s0).calls = before ++ ev :: after)
    (hcall : ev.call = .getAddress escrow) :
    ⟨.waitForDeployment escrow, .returned⟩ ∈ before := by
  revert hlog
  rcases run_cases hre s0 with ⟨s1, e, h1⟩ | ⟨s1, s2, F, e, h1, h2⟩ |
    ⟨s1, s2, s3, F, h, e, h1, h2, h3⟩ | ⟨s1, s2, s3, s4, F, h, e, h1, h2, h3, h4⟩ |
    ⟨s1, s2, s3, s4, s5, F, h, a, e, h1, h2, h3, h4, h5⟩ |
    ⟨s1, s2, s3, s4, s5, s6, F, h, a, f, e, h1, h2, h3, h4, h5, h6⟩ |
    ⟨s1, s2, s3, s4, s5, s6, F, h, a, f, o, h1, h2, h3, h4, h5, h6⟩
  · rw [run_getContractFactory_throws hre inspect s0 s1 e h1]
    intro hlog
    simp [List.cons_eq_append_iff] at hlog
    aesop
  · rw [run_deploy_throws hre inspect s0 s1 s2 F e h1 h2]
    intro hlog
    simp [List.cons_eq_append_iff] at hlog
    aesop
  · rw [run_waitForDeployment_throws hre inspect s0 s1 s2 s3 F h e h1 h2 h3]
    intro hlog
    simp [List.cons_eq_append_iff] at hlog
    aesop
  · rw [run_getAddress_throws hre inspect s0 s1 s2 s3 s4 F h e h1 h2 h3 h4]
    intro hlog
    simp [List.cons_eq_append_iff] at hlog
    aesop
  · rw [run_platformFee_throws hre inspect s0 s1 s2 s3 s4 s5 F h a e h1 h2 h3 h4 h5]
    intro hlog
    simp [List.cons_eq_append_iff] at hlog
    aesop
  · rw [run_owner_throws hre inspect s0 s1 s2 s3 s4 s5 s6 F h a f e h1 h2 h3 h4 h5 h6]
    intro hlog
    simp [List.cons_eq_append_iff] at hlog
    aesop
  · rw [run_success hre inspect s0 s1 s2 s3 s4 s5 s6 F h a f o h1 h2 h3 h4 h5 h6]
    intro hlog
    simp [List.cons_eq_append_iff] at hlog
    aesop

/-- Witness for C5: in the run where all six calls succeed, the getAddress
call is the fourth entry of the log and the returned waitForDeployment call is
among the three before it. -/
theorem address_read_after_confirmation_witness :
    (run (scripted 6) inspectBigInt 0).calls =
      [⟨.getContractFactory "GonanaEscrow", .returned⟩, ⟨.deploy (), .returned⟩,
        ⟨.waitForDeployment (), .returned⟩] ++
        ⟨.getAddress (), .returned⟩ :: [⟨.platformFee (), .returned⟩, ⟨.owner (), .returned⟩] ∧
    (⟨.waitForDeployment (), .returned⟩ : Event String Unit Unit) ∈
      [⟨.getContractFactory "GonanaEscrow", .returned⟩, ⟨.deploy (), .returned⟩,
        ⟨.waitForDeployment (), .returned⟩] :=
  ⟨rfl, address_read_after_confirmation (scripted 6) inspectBigInt 0
    [⟨.getContractFactory "GonanaEscrow", .returned⟩, ⟨.deploy (), .returned⟩,
      ⟨.waitForDeployment (), .returned⟩]
    [⟨.platformFee (), .returned⟩, ⟨.owner (), .returned⟩]
    ⟨.getAddress (), .returned⟩ () rfl rfl⟩

/-- C6 (single mutation, no retry): in every run deploy is invoked at most
once, and exactly once when getContractFactory succeeds; every operation is
invoked at most once; and a call that throws is the last entry of the call
log, so nothing is invoked again after a throw. -/
theorem single_mutation_no_retry (hre : Hardhat σ ε Factory Handle)
    (inspect : Nat → String) (s0 : σ) :
    invocations .deploy (run hre inspect s0).calls ≤ 1 ∧
    ((∃ F s1, hre.getContractFactory "GonanaEscrow" s0 = (.ok F, s1)) →
      invocations .deploy (run hre inspect s0).calls = 1) ∧
    (∀ op, invocations op (run hre inspect s0).calls ≤ 1) ∧
    (∀ before after ev e, (run hre inspect s0).calls = before ++ ev :: after →
      ev.outcome = .threw e → after = []) := by
  rcases run_cases hre s0 with ⟨s1, e, h1⟩ | ⟨s1, s2, F, e, h1, h2⟩ |
    ⟨s1, s2, s3, F, h, e, h1, h2, h3⟩ | ⟨s1, s2, s3, s4, F, h, e, h1, h2, h3, h4⟩ |
    ⟨s1, s2, s3, s4, s5, F, h, a, e, h1, h2, h3, h4, h5⟩ |
    ⟨s1, s2, s3, s4, s5, s6, F, h, a, f, e, h1, h2, h3, h4, h5, h6⟩ |
    ⟨s1, s2, s3, s4, s5, s6, F, h, a, f, o, h1, h2, h3, h4, h5, h6⟩
  · rw [run_getContractFactory_throws hre inspect s0 s1 e h1]
    refine ⟨by simp [invocations, Call.op], ?_, ?_, ?_⟩
    · rintro ⟨F, t1, hF⟩
      rw [h1] at hF
      cases hF
    · intro op
      cases op <;> simp [invocations, Call.op]
    · intro before after ev e hlog hthrew
      simp [List.cons_eq_append_iff] at hlog
      aesop
  · rw [run_deploy_throws hre inspect s0 s1 s2 F e h1 h2]
    refine ⟨by simp [invocations, Call.op], fun _ => by simp [invocations, Call.op], ?_, ?_⟩
    · intro op
      cases op <;> simp [invocations, Call.op]
    · intro before after ev e hlog hthrew
      simp [List.cons_eq_append_iff] at hlog
      aesop
  · rw [run_waitForDeployment_throws hre inspect s0 s1 s2 s3 F h e h1 h2 h3]
    refine ⟨by simp [invocations, Call.op], fun _ => by simp [invocations, Call.op], ?_, ?_⟩
    · intro op
      cases op <;> simp [invocations, Call.op]
    · intro before after ev e hlog hthrew
      simp [List.cons_eq_append_iff] at hlog
      aesop
  · rw [run_getAddress_throws hre inspect s0 s1 s2 s3 s4 F h e h1 h2 h3 h4]
    refine ⟨by simp [invocations, Call.op], fun _ => by simp [invocations, Call.op], ?_, ?_⟩
    · intro op
      cases op <;> simp [invocations, Call.op]
    · intro before after ev e hlog hthrew
      simp [List.cons_eq_append_iff] at hlog
      aesop
  · rw [run_platformFee_throws hre inspect s0 s1 s2 s3 s4 s5 F h a e h1 h2 h3 h4 h5]
    refine ⟨by simp [invocations, Call.op], fun _ => by simp [invocations, Call.op], ?_, ?_⟩
    · intro op
      cases op <;> simp [invocations, Call.op]
    · intro before after ev e hlog hthrew
      simp [List.cons_eq_append_iff] at hlog
      aesop
  · rw [run_owner_throws hre inspect s0 s1 s2 s3 s4 s5 s6 F h a f e h1 h2 h3 h4 h5 h6]
    refine ⟨by simp [invocations, Call.op], fun _ => by simp [invocations, Call.op], ?_, ?_⟩
    · intro op
      cases op <;> simp [invocations, Call.op]
    · intro before after ev e hlog hthrew
      simp [List.cons_eq_append_iff] at hlog
      aesop
  · rw [run_success hre inspect s0 s1 s2 s3 s4 s5 s6 F h a f o h1 h2 h3 h4 h5 h6]
    refine ⟨by simp [invocations, Call.op], fun _ => by simp [invocations, Call.op], ?_, ?_⟩
    · intro op
      cases op <;> simp [invocations, Call.op]
    · intro before after ev e hlog hthrew
      simp [List.cons_eq_append_iff] at hlog
      aesop

/-- C7 (report links reference the deployed address): on a successful run
with getAddress returning `a`, standard output holds the message
"https://testnet.bscscan.com/address/" followed by `a` and the message
"npx hardhat verify --network bscTestnet " followed by `a`, with the same `a`
as the "deployed to:" message; the verification command is only printed: the
call log holds the six collaborator calls and nothing else, and the
collaborator is left in the state the owner read left it in. -/
theorem report_links_reference_address (hre : Hardhat σ ε Factory Handle)
    (inspect : Nat → String)
    (s0 s1 s2 s3 s4 s5 s6 : σ) (F : Factory) (h : Handle) (a : String) (f : Nat) (o : String)
    (h1 : hre.getContractFactory "GonanaEscrow" s0 = (.ok F, s1))
    (h2 : hre.deploy F s1 = (.ok h, s2))
    (h3 : hre.waitForDeployment h s2 = (.ok (), s3))
    (h4 : hre.getAddress h s3 = (.ok a, s4))
    (h5 : hre.platformFee h s4 = (.ok f, s5))
    (h6 : hre.owner h s5 = (.ok o, s6)) :
    (run hre inspect s0).stdout =
      ["Deploying GonanaEscrow to BNB Chain Testnet...",
        "✅ GonanaEscrow deployed to: " ++ a,
        "\nContract details:",
        "- Platform Fee: " ++ inspect f ++ " basis points (2.5%)",
        "- Owner: " ++ o,
        "\nView on BscScan:",
        "https://testnet.bscscan.com/address/" ++ a,
        "\nTo verify contract, run:",
        "npx hardhat verify --network bscTestnet " ++ a] ∧
    (run hre inspect s0).calls =
      [⟨.getContractFactory "GonanaEscrow", .returned⟩, ⟨.deploy F, .returned⟩,
        ⟨.waitForDeployment h, .returned⟩, ⟨.getAddress h, .returned⟩,
        ⟨.platformFee h, .returned⟩, ⟨.owner h, .returned⟩] ∧
    (run hre inspect s0).world = s6 := by
  rw [run_success hre inspect s0 s1 s2 s3 s4 s5 s6 F h a f o h1 h2 h3 h4 h5 h6]
  exact ⟨rfl, rfl, rfl⟩

/-- Witness for C7: the run where all six calls succeed with address 0xA11CE. -/
theorem report_links_reference_address_witness :
    (scripted 6).getContractFactory "GonanaEscrow" 0 = (.ok (), 1) ∧
    (scripted 6).deploy () 1 = (.ok (), 2) ∧
    (scripted 6).waitForDeployment () 2 = (.ok (), 3) ∧
    (scripted 6).getAddress () 3 = (.ok "0xA11CE", 4) ∧
    (scripted 6).platformFee () 4 = (.ok 250, 5) ∧
    (scripted 6).owner () 5 = (.ok "0xB0B", 6) ∧
    (run (scripted 6) inspectBigInt 0).stdout =
      ["Deploying GonanaEscrow to BNB Chain Testnet...",
        "✅ GonanaEscrow deployed to: " ++ "0xA11CE",
        "\nContract details:",
        "- Platform Fee: " ++ inspectBigInt 250 ++ " basis points (2.5%)",
        "- Owner: " ++ "0xB0B",
        "\nView on BscScan:",
        "https://testnet.bscscan.com/address/" ++ "0xA11CE",
        "\nTo verify contract, run:",
        "npx hardhat verify --network bscTestnet " ++ "0xA11CE"] ∧
    (run (scripted 6) inspectBigInt 0).calls =
      [⟨.getContractFactory "GonanaEscrow", .returned⟩, ⟨.deploy (), .returned⟩,
        ⟨.waitForDeployment (), .returned⟩, ⟨.getAddress (), .returned⟩,
        ⟨.platformFee (), .returned⟩, ⟨.owner (), .returned⟩] ∧
    (run (scripted 6) inspectBigInt 0).world = 6 :=
  ⟨rfl, rfl, rfl, rfl, rfl, rfl,
    report_links_reference_address (scripted 6) inspectBigInt 0 1 2 3 4 5 6 () ()
      "0xA11CE" 250 "0xB0B" rfl rfl rfl rfl rfl rfl⟩

/-- C8 (output determinism, amended): under one rendering `inspect` of the
fee by `console.log`, two successful runs, against any two collaborators in
any two states, in which getAddress, platformFee and owner return the same
address, fee and owner print the same messages and the same text on standard
output. -/
theorem output_determinism {τ δ Factory2 Handle2 : Type}
    (hre : Hardhat σ ε Factory Handle) (hre2 : Hardhat τ δ Factory2 Handle2)
    (inspect : Nat → String)
    (s0 s1 s2 s3 s4 s5 s6 : σ) (F : Factory) (h : Handle)
    (t0 t1 t2 t3 t4 t5 t6 : τ) (G : Factory2) (g : Handle2)
    (a : String) (f : Nat) (o : String)
    (h1 : hre.getContractFactory "GonanaEscrow" s0 = (.ok F, s1))
    (h2 : hre.deploy F s1 = (.ok h, s2))
    (h3 : hre.waitForDeployment h s2 = (.ok (), s3))
    (h4 : hre.getAddress h s3 = (.ok a, s4))
    (h5 : hre.platformFee h s4 = (.ok f, s5))
    (h6 : hre.owner h s5 = (.ok o, s6))
    (g1 : hre2.getContractFactory "GonanaEscrow" t0 = (.ok G, t1))
    (g2 : hre2.deploy G t1 = (.ok g, t2))
    (g3 : hre2.waitForDeployment g t2 = (.ok (), t3))
    (g4 : hre2.getAddress g t3 = (.ok a, t4))
    (g5 : hre2.platformFee g t4 = (.ok f, t5))
    (g6 : hre2.owner g t5 = (.ok o, t6)) :
    (run hre inspect s0).stdout = (run hre2 inspect t0).stdout ∧
    (run hre inspect s0).stdoutText = (run hre2 inspect t0).stdoutText := by
  rw [run_success hre inspect s0 s1 s2 s3 s4 s5 s6 F h a f o h1 h2 h3 h4 h5 h6,
    run_success hre2 inspect t0 t1 t2 t3 t4 t5 t6 G g a f o g1 g2 g3 g4 g5 g6]
  exact ⟨rfl, rfl⟩

/-- Witness for C8: the scripted collaborator and the steady one, which share
no state, error or handle type, return the same address, fee and owner. -/
theorem output_determinism_witness :
    (scripted 6).getAddress () 3 = (.ok "0xA11CE", 4) ∧
    (scripted 6).platformFee () 4 = (.ok 250, 5) ∧
    (scripted 6).owner () 5 = (.ok "0xB0B", 6) ∧
    (steady "0xA11CE" 250 "0xB0B").getAddress 7 () = (.ok "0xA11CE", ()) ∧
    (steady "0xA11CE" 250 "0xB0B").platformFee 7 () = (.ok 250, ()) ∧
    (steady "0xA11CE" 250 "0xB0B").owner 7 () = (.ok "0xB0B", ()) ∧
    (run (scripted 6) inspectBigInt 0).stdout =
      (run (steady "0xA11CE" 250 "0xB0B") inspectBigInt ()).stdout ∧
    (run (scripted 6) inspectBigInt 0).stdoutText =
      (run (steady "0xA11CE" 250 "0xB0B") inspectBigInt ()).stdoutText :=
  ⟨rfl, rfl, rfl, rfl, rfl, rfl,
    output_determinism (scripted 6) (steady "0xA11CE" 250 "0xB0B") inspectBigInt
      0 1 2 3 4 5 6 () () () () () () () () () 1 7 "0xA11CE" 250 "0xB0B"
      rfl rfl rfl rfl rfl rfl rfl rfl rfl rfl rfl rfl⟩

/-- Counterexample for C8 as stated: the same collaborator returns the same
address 0xA11CE, fee 250 and owner 0xB0B in two successful runs, and the text
on standard output differs, because `console.log` renders the fee without
colours in one run and with colours in the other. -/
theorem output_depends_on_fee_rendering :
    (scripted 6).getAddress () 3 = (.ok "0xA11CE", 4) ∧
    (scripted 6).platformFee () 4 = (.ok 250, 5) ∧
    (scripted 6).owner () 5 = (.ok "0xB0B", 6) ∧
    (run (scripted 6) inspectBigInt 0).exitCode = some 0 ∧
    (run (scripted 6) inspectBigIntColour 0).exitCode = some 0 ∧
    (run (scripted 6) inspectBigInt 0).stdoutText ≠
      (run (scripted 6) inspectBigIntColour 0).stdoutText := by
  refine ⟨rfl, rfl, rfl, rfl, rfl, ?_⟩
  decide

/-- C9 (partial summary on a late read failure): if every step up to and
including the platformFee read succeeds and the owner read throws, the script
exits with code 1 and standard output holds exactly the banner, the
"deployed to:" message, the "Contract details:" header and the "- Platform Fee:"
message: the report is printed between the reads.  No message beginning with
"- Owner:", with the explorer URL or with the verification command is printed. -/
theorem partial_summary_on_owner_failure (hre : Hardhat σ ε Factory Handle)
    (inspect : Nat → String)
    (s0 s1 s2 s3 s4 s5 s6 : σ) (F : Factory) (h : Handle) (a : String) (f : Nat) (e : ε)
    (h1 : hre.getContractFactory "GonanaEscrow" s0 = (.ok F, s1))
    (h2 : hre.deploy F s1 = (.ok h, s2))
    (h3 : hre.waitForDeployment h s2 = (.ok (), s3))
    (h4 : hre.getAddress h s3 = (.ok a, s4))
    (h5 : hre.platformFee h s4 = (.ok f, s5))
    (h6 : hre.owner h s5 = (.error e, s6)) :
    (run hre inspect s0).exitCode = some 1 ∧
    (run hre inspect s0).stdout =
      ["Deploying GonanaEscrow to BNB Chain Testnet...",
        "✅ GonanaEscrow deployed to: " ++ a,
        "\nContract details:",
        "- Platform Fee: " ++ inspect f ++ " basis points (2.5%)"] ∧
    ¬ Printed "- Owner:" (run hre inspect s0).stdout ∧
    ¬ Printed "https://testnet.bscscan.com/address/" (run hre inspect s0).stdout ∧
    ¬ Printed "npx hardhat verify" (run hre inspect s0).stdout := by
  rw [run_owner_throws hre inspect s0 s1 s2 s3 s4 s5 s6 F h a f e h1 h2 h3 h4 h5 h6]
  refine ⟨rfl, rfl, ?_, ?_, ?_⟩ <;>
  · rintro ⟨m, hm, hp⟩
    simp only [List.mem_cons, List.mem_singleton, List.not_mem_nil, or_false] at hm
    rcases hm with rfl | rfl | rfl | rfl
    · revert hp; decide
    · rw [String.data_append] at hp
      exact not_begins _ _ _ (by decide) hp
    · revert hp; decide
    · rw [String.data_append, String.data_append, List.append_assoc] at hp
      exact not_begins _ _ _ (by decide) hp

/-- Witness for C9: a collaborator whose first five calls succeed and whose
owner read throws. -/
theorem partial_summary_on_owner_failure_witness :
    (scripted 5).getContractFactory "GonanaEscrow" 0 = (.ok (), 1) ∧
    (scripted 5).deploy () 1 = (.ok (), 2) ∧
    (scripted 5).waitForDeployment () 2 = (.ok (), 3) ∧
    (scripted 5).getAddress () 3 = (.ok "0xA11CE", 4) ∧
    (scripted 5).platformFee () 4 = (.ok 250, 5) ∧
    (scripted 5).owner () 5 = (.error "owner", 6) ∧
    (run (scripted 5) inspectBigInt 0).exitCode = some 1 ∧
    (run (scripted 5) inspectBigInt 0).stdout =
      ["Deploying GonanaEscrow to BNB Chain Testnet...",
        "✅ GonanaEscrow deployed to: " ++ "0xA11CE",
        "\nContract details:",
        "- Platform Fee: " ++ inspectBigInt 250 ++ " basis points (2.5%)"] ∧
    ¬ Printed "- Owner:" (run (scripted 5) inspectBigInt 0).stdout ∧
    ¬ Printed "https://testnet.bscscan.com/address/" (run (scripted 5) inspectBigInt 0).stdout ∧
    ¬ Printed "npx hardhat verify" (run (scripted 5) inspectBigInt 0).stdout :=
  ⟨rfl, rfl, rfl, rfl, rfl, rfl,
    partial_summary_on_owner_failure (scripted 5) inspectBigInt 0 1 2 3 4 5 6 () ()
      "0xA11CE" 250 "owner" rfl rfl rfl rfl rfl rfl⟩

/-- C10 (hard-coded percentage label): whenever the platformFee read returns
`f`, the fee message printed is "- Platform Fee: ", the rendering of `f`, and
the constant text " basis points (2.5%)", whatever `f` is; `f` basis points
are `f / 100` percent, which is the printed 2.5 exactly when `f = 250`. -/
theorem fee_label_is_constant (hre : Hardhat σ ε Factory Handle) (inspect : Nat → String)
    (s0 s1 s2 s3 s4 s5 : σ) (F : Factory) (h : Handle) (a : String) (f : Nat)
    (h1 : hre.getContractFactory "GonanaEscrow" s0 = (.ok F, s1))
    (h2 : hre.deploy F s1 = (.ok h, s2))
    (h3 : hre.waitForDeployment h s2 = (.ok (), s3))
    (h4 : hre.getAddress h s3 = (.ok a, s4))
    (h5 : hre.platformFee h s4 = (.ok f, s5)) :
    (run hre inspect s0).stdout[3]? =
      some ("- Platform Fee: " ++ inspect f ++ " basis points (2.5%)") ∧
    ((f : ℚ) / 100 = 2.5 ↔ f = 250) := by
  constructor
  · rcases h6 : hre.owner h s5 with ⟨e | o, s6⟩
    · rw [run_owner_throws hre inspect s0 s1 s2 s3 s4 s5 s6 F h a f e h1 h2 h3 h4 h5 h6]
      rfl
    · rw [run_success hre inspect s0 s1 s2 s3 s4 s5 s6 F h a f o h1 h2 h3 h4 h5 h6]
      rfl
  · constructor
    · intro hq
      have hq2 : (f : ℚ) = 250 := by linarith
      exact_mod_cast hq2
    · rintro rfl
      norm_num

/-- Witness for C10: a fee of 500 basis points is still printed with the
label (2.5%). -/
theorem fee_label_is_constant_witness :
    (steady "0xA11CE" 500 "0xB0B").platformFee 7 () = (.ok 500, ()) ∧
    (run (steady "0xA11CE" 500 "0xB0B") inspectBigInt ()).stdout[3]? =
      some ("- Platform Fee: " ++ inspectBigInt 500 ++ " basis points (2.5%)") ∧
    (((500 : Nat) : ℚ) / 100 = 2.5 ↔ 500 = 250) :=
  ⟨rfl, fee_label_is_constant (steady "0xA11CE" 500 "0xB0B") inspectBigInt
    () () () () () () 1 7 "0xA11CE" 500 rfl rfl rfl rfl rfl⟩

end

end Deploy
